import Mathlib

/-!
Shallow embedding of the `pytikz` code generator (files `tikz/core.py`,
`tikz/options.py`, `tikz/capability.py`, `tikz/scope.py`, `tikz/picture.py`)
together with proofs that settle the frozen claims about it.

Modelling conventions:
* Python strings are `String`, Python lists/tuples are Lean lists.
* Python numbers (`numbers.Real`) are modelled as exact rationals `ℚ`.
  The fixed-point rendering `"{:.5f}".format(x)` is modelled as exact
  rational rounding to 5 decimals; the two agree on every value that is
  exactly representable with 5 decimal digits (all inputs appearing in the
  claims).  `str.rstrip` on a single character is `List.rdropWhile` on the
  character list of the string.
* Fallible Python code (functions that may `raise`) returns `Except String`.
* Error-message texts follow the source f-strings, except that quote
  characters that would appear inside Python `repr` output are left out.
-/

namespace PyTikz

/-- One decimal digit as a character, `0 ≤ n % 10 ≤ 9`. -/
def digitChar (n : ℕ) : Char :=
  Char.ofNat (48 + n % 10)

/-- Decimal digits of a natural number, accumulator style.  The first
argument is fuel (starting at `n` itself), which dominates the number of
divisions by 10; this keeps the definition structurally recursive so that
it evaluates inside the kernel. -/
def natToDecAux : ℕ → ℕ → List Char → List Char
  | 0, _, acc => acc
  | fuel + 1, n, acc =>
    if n = 0 then acc else natToDecAux fuel (n / 10) (digitChar (n % 10) :: acc)

/-- Decimal representation of a natural number (`str(n)` in Python). -/
def natToDec (n : ℕ) : List Char :=
  if n = 0 then ['0'] else natToDecAux n n []

/-- Decimal representation of an integer (`str(n)` in Python). -/
def intToDec (n : ℤ) : List Char :=
  if n < 0 then '-' :: natToDec n.natAbs else natToDec n.toNat

/-- Python `s.rstrip(c)` for a single character `c`, on character lists. -/
def pyRstrip (l : List Char) (c : Char) : List Char :=
  l.rdropWhile (· == c)

/-- Python `s.startswith(pre)`. -/
def pyStartsWith (s pre : String) : Bool :=
  pre.data.isPrefixOf s.data

/-- Python `s.endswith(suf)`. -/
def pyEndsWith (s suf : String) : Bool :=
  suf.data.reverse.isPrefixOf s.data.reverse

/-- Python `s.lower()` (ASCII case folding, which is all the source needs). -/
def pyLower (s : String) : String :=
  ⟨s.data.map Char.toLower⟩

/-- Python `key.replace("_", " ")`: for a one-character pattern this is a
character map. -/
def underscoreToSpace (s : String) : String :=
  ⟨s.data.map (fun c => if c == '_' then ' ' else c)⟩

/-- `⌊q * 100000 + 1/2⌋` computed directly on numerator and denominator
(kernel-reducible): the integer of which `"{:.5f}".format(q)` prints the
digits.  Python rounds ties to even on the underlying binary float; the two
agree on every input that is not a tie at the 5th decimal, in particular on
every exactly-representable 5-decimal value. -/
def scale5 (q : ℚ) : ℤ :=
  Int.fdiv (2 * q.num * 100000 + q.den) (2 * q.den)

/-- Left-pad a digit list with `'0'` to length 5. -/
def pad5 (l : List Char) : List Char :=
  List.replicate (5 - l.length) '0' ++ l

/-- `"{:.5f}"` applied to a nonnegative scaled integer `n` (`n` is the value
times `10^5`): integer digits, a decimal point, five fractional digits. -/
def fixed5Nat (n : ℕ) : List Char :=
  natToDec (n / 100000) ++ '.' :: pad5 (natToDec (n % 100000))

/-- `"{:.5f}".format(q)` as a character list. -/
def fixed5 (q : ℚ) : List Char :=
  let n := scale5 q
  if n < 0 then '-' :: fixed5Nat n.natAbs else fixed5Nat n.toNat

/-- `tikz.core._str_or_numeric_code` restricted to the numeric case:
`"{:.5f}".format(x).rstrip("0").rstrip(".")` (core.py lines 179-193). -/
def numericCode (q : ℚ) : String :=
  ⟨pyRstrip (pyRstrip (fixed5 q) '0') '.'⟩

/-- The Python values the coordinate machinery can meet: strings, numbers
(`numbers.Real`, as exact rationals), tuples, lists, 1-d numeric ndarrays,
2-d numeric ndarrays, `None`, and anything else (carried as its `str()`
text).  ndarrays built by this code are always numeric, so their entries
are stored directly as rationals. -/
inductive PyVal where
  | str (s : String)
  | num (q : ℚ)
  | tup (xs : List PyVal)
  | list (xs : List PyVal)
  | arr (qs : List ℚ)
  | arr2 (rows : List (List ℚ))
  | noneV
  | other (txt : String)

/-- `_str(obj)`: `isinstance(obj, str)` (core.py line 87). -/
def isStrV : PyVal → Bool
  | .str _ => true
  | _ => false

/-- `_numeric(obj)`: `isinstance(obj, numbers.Real)` (core.py line 95). -/
def isNumV : PyVal → Bool
  | .num _ => true
  | _ => false

/-- `_str_or_numeric(obj)` (core.py line 99). -/
def isStrOrNumV (v : PyVal) : Bool :=
  isStrV v || isNumV v

/-- The string of a `.str` value (only used under an `isStrV` guard). -/
def strOf : PyVal → String
  | .str s => s
  | _ => ""

/-- The rational of a `.num` value (only used under an `isNumV` guard). -/
def numOf : PyVal → ℚ
  | .num q => q
  | _ => 0

/-- Python `str()` of a rational; decimal text for whole numbers, `p/q`
otherwise (numeric texts only reach error messages, where the claims need
the value to be identified, not a bit-exact float repr). -/
def ratText (q : ℚ) : String :=
  if q.den = 1 then ⟨intToDec q.num⟩
  else ⟨intToDec q.num⟩ ++ "/" ++ ⟨natToDec q.den⟩

mutual

/-- Python `repr` of a value as used inside containers by `str()`; quote
characters around strings are left out (see the file header). -/
def pyRepr : PyVal → String
  | .str s => s
  | .num q => ratText q
  | .tup xs => "(" ++ String.intercalate ", " (pyReprList xs) ++ ")"
  | .list xs => "[" ++ String.intercalate ", " (pyReprList xs) ++ "]"
  | .arr qs => "[" ++ String.intercalate " " (qs.map ratText) ++ "]"
  | .arr2 rows =>
      "[" ++ String.intercalate " " (rows.map fun r =>
        "[" ++ String.intercalate " " (r.map ratText) ++ "]") ++ "]"
  | .noneV => "None"
  | .other txt => txt

/-- `repr` of each element of a list of values. -/
def pyReprList : List PyVal → List String
  | [] => []
  | x :: xs => pyRepr x :: pyReprList xs

end

/-- Python `str()` / f-string interpolation of a value. -/
def pyStr : PyVal → String
  | .str s => s
  | v => pyRepr v

/-- The string test of `_coordinate` (core.py lines 117-120): enclosed in
parentheses, possibly prefixed by `+` or `++`, or the literal `cycle`. -/
def isCoordStr (s : String) : Bool :=
  ((pyStartsWith s "(" || pyStartsWith s "+(" || pyStartsWith s "++(")
      && pyEndsWith s ")")
    || s == "cycle"

/-- `tikz.core._coordinate` (core.py lines 111-145): check and normalize a
coordinate.  The source tries, in order: the string form; a 2/3-tuple of
strings and/or numbers (all strings is joined to a parenthesized string,
all numbers becomes a 1-d ndarray, mixed is kept); a 2/3-element 1-d
numeric ndarray; otherwise `TypeError(f"{coord} is not a coordinate")`. -/
def pyCoordinate (coord : PyVal) : Except String PyVal :=
  match coord with
  | .str s =>
      if isCoordStr s then .ok (.str s)
      else .error (pyStr (.str s) ++ " is not a coordinate")
  | .tup xs =>
      if (xs.length == 2 || xs.length == 3) && xs.all isStrOrNumV then
        if xs.all isStrV then
          .ok (.str ("(" ++ String.intercalate "," (xs.map strOf) ++ ")"))
        else if xs.all isNumV then
          .ok (.arr (xs.map numOf))
        else
          .ok (.tup xs)
      else .error (pyStr (.tup xs) ++ " is not a coordinate")
  | .arr qs =>
      if qs.length == 2 || qs.length == 3 then .ok (.arr qs)
      else .error (pyStr (.arr qs) ++ " is not a coordinate")
  | v => .error (pyStr v ++ " is not a coordinate")

/-- `_ndarray` test used inside `_sequence` (core.py line 103). -/
def isArrV : PyVal → Bool
  | .arr _ => true
  | _ => false

/-- `coord.size` of a 1-d ndarray value. -/
def arrSize : PyVal → ℕ
  | .arr qs => qs.length
  | _ => 0

/-- The entries of a 1-d ndarray value. -/
def arrOf : PyVal → List ℚ
  | .arr qs => qs
  | _ => []

/-- The list branch of `tikz.core._sequence` (core.py lines 155-163):
normalize every contained coordinate; if all of them are 1-d ndarrays of
the same size as the first, stack them into one 2-d ndarray. -/
def pySequenceList (xs : List PyVal) : Except String PyVal := do
  let ys ← xs.mapM pyCoordinate
  if ys.all isArrV && ys.all (fun c => arrSize c == arrSize (ys.headD (.arr []))) then
    pure (.arr2 (ys.map arrOf))
  else
    pure (.list ys)

/-- `tikz.core._sequence` (core.py lines 148-176).  A list is normalized
elementwise; a numeric 2-d ndarray with 2 or 3 columns is returned as is;
otherwise, when `accept_coordinate` holds, the source calls
`_sequence([seq])`, which lands in the list branch, written here as a
direct call to `pySequenceList [seq]`; otherwise `TypeError`.  (`shape[1]`
of a 2-d ndarray is the common row length, read off the first row.) -/
def pySequence (seq : PyVal) (acceptCoordinate : Bool) : Except String PyVal :=
  match seq with
  | .list xs => pySequenceList xs
  | .arr2 rows =>
      if (rows.headD []).length == 2 || (rows.headD []).length == 3 then
        .ok (.arr2 rows)
      else if acceptCoordinate then pySequenceList [.arr2 rows]
      else .error (pyStr (.arr2 rows) ++ " is not a sequence of coordinates")
  | v =>
      if acceptCoordinate then pySequenceList [v]
      else .error (pyStr v ++ " is not a sequence of coordinates")

/-- `tikz.core._str_or_numeric_code` (core.py lines 179-193): leave string
elements as is, render numeric elements in fixed-point. -/
def strOrNumericCode : PyVal → String
  | .str s => s
  | .num q => numericCode q
  | _ => ""

/-- Iteration over a normalized coordinate (a 2/3-tuple or a 1-d ndarray)
inside `_coordinate_code`. -/
def coordElems : PyVal → List PyVal
  | .tup xs => xs
  | .arr qs => qs.map .num
  | .list xs => xs
  | _ => []

/-- `tikz.core._coordinate_code` (core.py lines 196-205): a string
coordinate is emitted as is; otherwise the (optionally transformed)
components are rendered and joined with commas inside parentheses. -/
def coordinateCode (coord : PyVal) (trans : Option (PyVal → PyVal)) : String :=
  match coord with
  | .str s => s
  | c =>
      let c := match trans with
        | some t => t c
        | none => c
      "(" ++ String.intercalate "," ((coordElems c).map strOrNumericCode) ++ ")"

/-- Iteration over a normalized coordinate sequence (a list or a 2-d
ndarray, whose rows are 1-d ndarrays). -/
def seqElems : PyVal → List PyVal
  | .list xs => xs
  | .arr2 rows => rows.map .arr
  | v => [v]

/-- A value usable as a TikZ option value (`tikz/options.py`): the booleans
(Python `True` collapses `key=True` to the bare key), strings, numbers. -/
inductive OptVal where
  | boolT
  | boolF
  | strV (s : String)
  | numV (q : ℚ)

/-- Python `str()` of an option value. -/
def OptVal.text : OptVal → String
  | .boolT => "True"
  | .boolF => "False"
  | .strV s => s
  | .numV q => ratText q

/-- An element of the positional-argument tuple of `Opts.__init__` as seen
by `Opts._nested_str_list_to_str`: `None`, a plain value (carried as its
`str()` text), or a list/tuple of such elements. -/
inductive Nested where
  | null
  | leaf (s : String)
  | many (xs : List Nested)

mutual

/-- `Opts._nested_str_list_to_str` (options.py lines 29-35): `None` becomes
the empty string, lists and tuples are rendered recursively and joined
with commas, anything else is its `str()`. -/
def nestedStrListToStr : Nested → String
  | .null => ""
  | .leaf s => s
  | .many xs => String.intercalate "," (nestedStrListToStrList xs)

/-- `nestedStrListToStr` mapped over a list. -/
def nestedStrListToStrList : List Nested → List String
  | [] => []
  | x :: xs => nestedStrListToStr x :: nestedStrListToStrList xs

end

/-- `tikz.options.Opts`: the positional-argument tuple `*option`, the
keyword mapping `**kw_option` in insertion order, and the
`underscore_to_space` flag (default `True`). -/
structure Opts where
  options : List Nested
  kw_option : List (String × OptVal)
  underscore_to_space : Bool

/-- `Opts._normalise_key_val` (options.py lines 19-27): replace underscores
in the key by spaces (when configured), and omit `=True`. -/
def normaliseKeyVal (u2s : Bool) (key : String) (val : OptVal) : String :=
  let key := if u2s then underscoreToSpace key else key
  match val with
  | .boolT => key
  | v => key ++ "=" ++ v.text

/-- `Opts.to_code` (options.py lines 38-46): the flattened positional flags
followed by the comma-joined `key=value` pairs, wrapped in square brackets
when nonempty unless `without_bracket` is requested.  (The source caches
this pure computation with `lru_cache`, which does not change its value.) -/
def Opts.to_code (o : Opts) (without_bracket : Bool) : String :=
  let out := nestedStrListToStr (.many o.options)
  let out := out ++ String.intercalate ","
    (o.kw_option.map fun kv => normaliseKeyVal o.underscore_to_space kv.1 kv.2)
  if without_bracket = false ∧ 0 < out.length then "[" ++ out ++ "]" else out

/-- An argument acceptable where the source takes `opt: OptsLike`
(options.py line 63): an `Opts`, a dict, a string, an iterable of flag
strings, or `None`. -/
inductive OptsLike where
  | optsL (o : Opts)
  | dictL (kw : List (String × OptVal))
  | strL (s : String)
  | iterL (xs : List Nested)
  | noneL

/-- `Opts.normalise` (options.py lines 48-56).  A dict becomes
`Opts(**opt)`; a string becomes `Opts([opt])`, whose positional tuple is
the one-element tuple holding the list `[opt]`; any other value `v`
(including `None`) becomes `Opts(v)`, whose positional tuple is `(v,)`. -/
def Opts.normalise : OptsLike → Opts
  | .optsL o => o
  | .dictL kw => ⟨[], kw, true⟩
  | .strL s => ⟨[.many [.leaf s]], [], true⟩
  | .iterL xs => ⟨[.many xs], [], true⟩
  | .noneL => ⟨[.null], [], true⟩

/-- `WithOptionsMixin.get_opt_code` (capability.py lines 20-21):
`self._option.to_code()` with the default `without_bracket=False`. -/
def getOptCode (o : Opts) : String :=
  o.to_code false

/-- A coordinate transform handed down through `_code(trans)`. -/
abbrev Trans := Option (PyVal → PyVal)

/-- `tikz.core.moveto` (core.py lines 262-279): `coords` normalized with
`_sequence(coords, accept_coordinate=True)`. -/
structure Moveto where
  coords : PyVal
  _option : Opts

/-- `moveto(coords, opt)` construction: normalization may raise. -/
def Moveto.make (coords : PyVal) (opt : OptsLike) : Except String Moveto := do
  let cs ← pySequence coords true
  pure ⟨cs, Opts.normalise opt⟩

/-- `moveto._code` (core.py lines 276-279). -/
def movetoCode (m : Moveto) (trans : Trans) : String :=
  String.intercalate " " ((seqElems m.coords).map fun c => coordinateCode c trans)

/-- `tikz.core.line` (core.py lines 307-325): a line-to chain with an
implicit leading move-to; `coords` normalized with the default
`accept_coordinate=True`, `op` defaults to `"--"`. -/
structure Line where
  coords : PyVal
  op : String
  _option : Opts

/-- `line(coords, op, opt)` construction. -/
def Line.make (coords : PyVal) (op : String) (opt : OptsLike) :
    Except String Line := do
  let cs ← pySequence coords true
  pure ⟨cs, op, Opts.normalise opt⟩

/-- `line._code` (core.py lines 320-325): coordinates joined by the line-to
operator. -/
def lineCode (l : Line) (trans : Trans) : String :=
  String.intercalate (" " ++ l.op ++ " ")
    ((seqElems l.coords).map fun c => coordinateCode c trans)

/-- A normalized path-specification element held by an `Action`: a `Raw`
string, a `moveto`, or a `line` (the operations the claims exercise). -/
inductive Op where
  | rawOp (s : String)
  | movetoOp (m : Moveto)
  | lineOp (l : Line)

/-- `Op._code(trans)` dispatch (`Raw._code` returns the stored string,
core.py lines 229-235). -/
def opCode (o : Op) (trans : Trans) : String :=
  match o with
  | .rawOp s => s
  | .movetoOp m => movetoCode m trans
  | .lineOp l => lineCode l trans

/-- An element of the `*spec` argument of `Action` before normalization:
an `Operation` object, a bare string, or (lists of) coordinates. -/
inductive SpecArg where
  | opA (o : Op)
  | strA (s : String)
  | coordsA (v : PyVal)

/-- `tikz.core._operation` (core.py lines 731-747): `Operation` objects are
kept, strings become `Raw`, anything else becomes `moveto(op)`. -/
def pyOperation : SpecArg → Except String Op
  | .opA o => .ok o
  | .strA s => .ok (.rawOp s)
  | .coordsA v => (Moveto.make v .noneL).map .movetoOp

/-- `tikz.core.Action` (core.py lines 750-777). -/
structure Action where
  action_name : String
  spec : List Op
  _option : Opts

/-- `Action(action_name, *spec, opt)` construction. -/
def Action.make (name : String) (spec : List SpecArg) (opt : OptsLike) :
    Except String Action := do
  let ops ← spec.mapM pyOperation
  pure ⟨name, ops, Opts.normalise opt⟩

/-- `Action._code` (core.py lines 768-777): backslash, verb, option code,
a space, the space-joined operation fragments, and a semicolon. -/
def actionCode (a : Action) (trans : Trans) : String :=
  "\\" ++ a.action_name ++ getOptCode a._option ++ " "
    ++ String.intercalate " " (a.spec.map fun o => opCode o trans) ++ ";"

/-- An element of a `Scope` (scope.py `_append`): a path action or raw
code.  (Nested scopes are also allowed by the source; no claim renders
one, so they are not modelled.) -/
inductive Element where
  | actionE (a : Action)
  | rawE (s : String)

/-- `el._code(trans)` for a scope element. -/
def elementCode (e : Element) (trans : Trans) : String :=
  match e with
  | .actionE a => actionCode a trans
  | .rawE s => s

/-- `tikz.scope.Scope`: an option set and an append-only element list. -/
structure Scope where
  _option : Opts
  elements : List Element

/-- `Scope(opt)` construction (scope.py lines 26-28). -/
def Scope.make (opt : OptsLike) : Scope :=
  ⟨Opts.normalise opt, []⟩

/-- `Scope.draw` (scope.py lines 84-93):
`self._append(Action("draw", *spec, **kwargs))`. -/
def Scope.draw (sc : Scope) (spec : List SpecArg) (opt : OptsLike) :
    Except String Scope := do
  let a ← Action.make "draw" spec opt
  pure ⟨sc._option, sc.elements ++ [.actionE a]⟩

/-- `Scope._code` (scope.py lines 50-56). -/
def scopeCode (sc : Scope) (trans : Trans) : String :=
  "\\begin{scope}" ++ getOptCode sc._option ++ "\n"
    ++ String.intercalate "\n" (sc.elements.map fun e => elementCode e trans)
    ++ "\n" ++ "\\end{scope}"

/-- A radius-like argument of `circle`/`arc`: `None`, a number, or a string
holding a number and a dimension. -/
inductive RadVal where
  | pyNone
  | numR (q : ℚ)
  | strR (s : String)

/-- `tikz.core.circle` (core.py lines 373-417).  The fields are exactly the
instance attributes its `__init__` sets: `_option` (via
`WithOptionsMixin.__init__`), `x_radius`, `y_radius`, and `at_` (named
`at` in the source; `at` is reserved in Lean). -/
structure Circle where
  _option : Opts
  x_radius : RadVal
  y_radius : RadVal
  at_ : Option PyVal

/-- `circle.__init__` (core.py lines 387-403): `radius`, when given,
overrides `x_radius`/`y_radius`; `at` is normalized by `_coordinate` and
may raise. -/
def Circle.make (radius x_radius y_radius : RadVal) (at_ : Option PyVal)
    (opt : OptsLike) : Except String Circle := do
  let (xr, yr) :=
    match radius with
    | .pyNone => (x_radius, y_radius)
    | r => (r, r)
  let atN ← match at_ with
    | some a => Except.map some (pyCoordinate a)
    | none => pure none
  pure ⟨Opts.normalise opt, xr, yr, atN⟩

/-- The attributes a `circle` instance has.  `kwoptions`, which
`circle._code` reads first, is not among them. -/
def Circle.attrNames : List String :=
  ["_option", "x_radius", "y_radius", "at"]

/-- `circle._code` (core.py lines 405-417).  Its first statement,
`kwoptions = self.kwoptions`, reads the attribute `kwoptions`, which no
`circle` instance has (`__init__` only sets `_option`, `x_radius`,
`y_radius` and `at`): Python raises `AttributeError` before any of the
radius-collapsing logic can run, so that logic is unreachable and only the
raising path is modelled. -/
def circleCode (c : Circle) (_trans : Trans) : Except String String :=
  if ("kwoptions" ∈ Circle.attrNames : Bool) then
    -- unreachable: the membership test is decidably false
    .ok ("circle" ++ getOptCode c._option)
  else
    .error "AttributeError: circle object has no attribute kwoptions"

/-- `tikz.core.arc` (core.py lines 420-452).  Instance attributes:
`_option`, `x_radius`, `y_radius`. -/
structure Arc where
  _option : Opts
  x_radius : RadVal
  y_radius : RadVal

/-- `arc.__init__` (core.py lines 431-440). -/
def Arc.make (radius x_radius y_radius : RadVal) (opt : OptsLike) : Arc :=
  match radius with
  | .pyNone => ⟨Opts.normalise opt, x_radius, y_radius⟩
  | r => ⟨Opts.normalise opt, r, r⟩

/-- The attributes an `arc` instance has; again no `kwoptions`. -/
def Arc.attrNames : List String :=
  ["_option", "x_radius", "y_radius"]

/-- `arc._code` (core.py lines 442-452): like `circle._code` it starts with
`kwoptions = self.kwoptions` and therefore raises `AttributeError` on
every instance. -/
def arcCode (a : Arc) (_trans : Trans) : Except String String :=
  if ("kwoptions" ∈ Arc.attrNames : Bool) then
    -- unreachable: the membership test is decidably false
    .ok ("arc" ++ getOptCode a._option)
  else
    .error "AttributeError: arc object has no attribute kwoptions"

/-- The result of one external LaTeX run (`subprocess.run`): its exit
status and captured output streams. -/
structure Completed where
  returncode : ℤ
  stdout : String
  stderr : String

/-- What the build phase of `Picture._update` (picture.py lines 166-203)
did: the cache path it computed, whether `subprocess.run` was executed,
the `LatexError` message if one was raised, and whether the produced
`tikz-figure0.pdf` was relocated (`os.rename`) onto the cache path. -/
structure BuildOutcome where
  temp_pdf : String
  invoked : Bool
  raised : Option String
  renamed : Bool

/-- The build phase of `Picture._update` (picture.py lines 173-203),
parameterized over the content-hash function `h` (`hashlib.sha1` hex
digest in the source), the document text, the set of files on disk, and
the external compiler result.  The PDF path is
`tempdir + sep + "tikz-" + hash + ".pdf"`; when caching is on and that
file exists the function returns before compiling; otherwise the compiler
runs, a nonzero exit raises `LatexError("LaTeX has failed\n" +
completed.stdout)` before the rename, and a zero exit renames the
artifact. -/
def updateBuild (cache : Bool) (tempdir : String) (h : String → String)
    (docCode : String) (fileExists : String → Bool) (completed : Completed) :
    BuildOutcome :=
  let temp_pdf := tempdir ++ "/" ++ "tikz-" ++ h docCode ++ ".pdf"
  if cache && fileExists temp_pdf then
    ⟨temp_pdf, false, none, false⟩
  else if completed.returncode == 0 then
    ⟨temp_pdf, true, none, true⟩
  else
    ⟨temp_pdf, true, some ("LaTeX has failed\n" ++ completed.stdout), false⟩

/-- The files on disk after a build: the previous files, plus the cache
path when the artifact was relocated onto it. -/
def fsAfter (fileExists : String → Bool) (o : BuildOutcome) :
    String → Bool :=
  fun p => fileExists p || (o.renamed && p == o.temp_pdf)

/-- The suffix of a character list after its last `'/'`, or `none` when
there is no slash. -/
def lastSlashSuffix : List Char → Option (List Char)
  | [] => none
  | c :: cs =>
      match lastSlashSuffix cs with
      | some e => some e
      | none => if c == '/' then some cs else none

/-- The suffix of a character list starting at its last `'.'`, or `none`. -/
def lastDotSuffix : List Char → Option (List Char)
  | [] => none
  | c :: cs =>
      match lastDotSuffix cs with
      | some e => some e
      | none => if c == '.' then some (c :: cs) else none

/-- `os.path.splitext(path)[1]`: the extension of the final path component,
including its dot; leading dots of the component do not start an
extension. -/
def splitextExt (path : String) : String :=
  let base : List Char := (lastSlashSuffix path.data).getD path.data
  let lead := base.takeWhile (· == '.')
  let rest := base.drop lead.length
  match lastDotSuffix rest with
  | some e => ⟨e⟩
  | none => ""

/-- Which branch `Picture.write_image` takes for a destination path
(picture.py lines 253-273): copy the PDF, render a PNG, convert to SVG, or
`ValueError(f"format {ext[1:]} is not supported")`. -/
inductive WriteBranch where
  | pdfCopy
  | pngRender
  | svgConvert
  | unsupported (msg : String)

/-- The error message of a `write_image` branch, if it is the error one. -/
def WriteBranch.errMsg : WriteBranch → Option String
  | .unsupported msg => some msg
  | _ => none

/-- The format dispatch of `Picture.write_image` (picture.py lines
253-273): the extension is taken by `os.path.splitext` and compared
case-insensitively against `.pdf`, `.png`, `.svg`; anything else raises
`ValueError` naming the extension without its dot. -/
def writeImageBranch (filename : String) : WriteBranch :=
  let ext := splitextExt filename
  if pyLower ext == ".pdf" then .pdfCopy
  else if pyLower ext == ".png" then .pngRender
  else if pyLower ext == ".svg" then .svgConvert
  else .unsupported ("format " ++ (⟨ext.data.drop 1⟩ : String) ++ " is not supported")

/-- The coordinate normalizer as claim C2 states it, written from the
claim wording (to be compared with `pyCoordinate`, which is written from
the source): a parenthesized/relative/cycle string is returned unchanged;
a 2- or 3-tuple of only strings becomes one parenthesized comma-joined
string; of only numbers becomes a fixed-size numeric array; mixed
strings/numbers is returned as is; a 2- or 3-element flat numeric array is
returned unchanged; every other value is a type error identifying the
offending value. -/
def coordinateClaimSpec (v : PyVal) : Except String PyVal :=
  match v with
  | .str s =>
      if s == "cycle"
          || ((pyStartsWith s "(" || pyStartsWith s "+(" || pyStartsWith s "++(")
                && pyEndsWith s ")") then
        .ok (.str s)
      else .error (pyStr (.str s) ++ " is not a coordinate")
  | .tup xs =>
      if xs.length == 2 || xs.length == 3 then
        if xs.all isStrV then
          .ok (.str ("(" ++ String.intercalate "," (xs.map strOf) ++ ")"))
        else if xs.all isNumV then
          .ok (.arr (xs.map numOf))
        else if xs.all isStrOrNumV then
          .ok (.tup xs)
        else .error (pyStr (.tup xs) ++ " is not a coordinate")
      else .error (pyStr (.tup xs) ++ " is not a coordinate")
  | .arr qs =>
      if qs.length == 2 || qs.length == 3 then .ok (.arr qs)
      else .error (pyStr (.arr qs) ++ " is not a coordinate")
  | v => .error (pyStr v ++ " is not a coordinate")

/-- The rational number 2.5 in kernel-normal form. -/
def twoPointFive : ℚ := Rat.mk' 5 2

/-- A string is nonempty exactly when its length is positive. -/
theorem string_length_pos (s : String) : 0 < s.length ↔ s ≠ "" := by
  have hd : s.length = s.data.length := rfl
  rw [hd, List.length_pos]
  constructor
  · intro h he
    rw [he] at h
    exact h rfl
  · intro h he
    exact h (String.ext he)

/-- `rstrip` distributes over append: stripping from the right either stays
inside the right part, or consumes it entirely and goes on in the left. -/
theorem pyRstrip_append (a b : List Char) (c : Char) :
    pyRstrip (a ++ b) c =
      if pyRstrip b c = [] then pyRstrip a c else a ++ pyRstrip b c := by
  simp only [pyRstrip, List.rdropWhile, List.reverse_append, List.dropWhile_append]
  by_cases h : List.dropWhile (· == c) b.reverse = []
  · simp [h, List.isEmpty_iff]
  · have h2 : (List.dropWhile (· == c) b.reverse).isEmpty = false := by
      simpa [List.isEmpty_iff] using h
    simp [h2, List.reverse_eq_nil_iff, h]

/-- The result of `rstrip c` never ends with `c`. -/
theorem pyRstrip_getLast_ne (l : List Char) (c : Char) :
    (pyRstrip l c).getLast? ≠ some c := by
  intro h
  have hrw : (pyRstrip l c).getLast? = (List.dropWhile (· == c) l.reverse).head? := by
    simp [pyRstrip, List.rdropWhile, List.getLast?_reverse]
  rw [hrw] at h
  have hnot := List.head?_dropWhile_not (· == c) l.reverse
  rw [h] at hnot
  simp at hnot

/-- A list not ending in `c` is untouched by `rstrip c`. -/
theorem pyRstrip_of_getLast_ne (l : List Char) (c : Char)
    (h : l.getLast? ≠ some c) : pyRstrip l c = l := by
  apply List.rdropWhile_eq_self_iff.mpr
  intro hl hp
  apply h
  rw [List.getLast?_eq_getLast l hl]
  simpa using hp

/-- A list not containing `c` is untouched by `rstrip c`. -/
theorem pyRstrip_of_not_mem (l : List Char) (c : Char) (h : c ∉ l) :
    pyRstrip l c = l := by
  apply pyRstrip_of_getLast_ne
  intro hlast
  rcases List.getLast?_eq_some_iff.mp hlast with ⟨ys, hys⟩
  exact h (by rw [hys]; simp)

/-- `rstrip` only removes characters: membership is preserved downward. -/
theorem mem_pyRstrip (l : List Char) (c x : Char) (h : x ∈ pyRstrip l c) :
    x ∈ l := by
  have hpre := List.rdropWhile_prefix (· == c) l
  exact hpre.subset h

/-- Every character produced by `natToDecAux` is a decimal digit or comes
from the accumulator. -/
theorem natToDecAux_chars (fuel : ℕ) :
    ∀ n acc c, c ∈ natToDecAux fuel n acc → c ∈ acc ∨ ∃ m, c = digitChar m := by
  induction fuel with
  | zero => intro n acc c h; exact Or.inl h
  | succ fuel ih =>
    intro n acc c h
    rw [natToDecAux] at h
    by_cases hn : n = 0
    · rw [if_pos hn] at h; exact Or.inl h
    · rw [if_neg hn] at h
      rcases ih (n / 10) (digitChar (n % 10) :: acc) c h with hacc | hd
      · rcases List.mem_cons.mp hacc with he | hacc
        · exact Or.inr ⟨n % 10, he⟩
        · exact Or.inl hacc
      · exact Or.inr hd

/-- A digit character is never the decimal point. -/
theorem digitChar_ne_dot (m : ℕ) : digitChar m ≠ '.' := by
  have h : m % 10 < 10 := Nat.mod_lt _ (by norm_num)
  unfold digitChar
  set k := m % 10 with hk
  interval_cases k <;> decide

/-- The decimal representation of a natural number has no decimal point. -/
theorem dot_not_mem_natToDec (n : ℕ) : '.' ∉ natToDec n := by
  intro h
  unfold natToDec at h
  by_cases hn : n = 0
  · rw [if_pos hn] at h; simp at h
  · rw [if_neg hn] at h
    rcases natToDecAux_chars n n [] '.' h with hacc | ⟨m, hm⟩
    · simp at hacc
    · exact digitChar_ne_dot m hm.symm

/-- The padded 5-digit fractional block has no decimal point. -/
theorem dot_not_mem_pad5 (n : ℕ) : '.' ∉ pad5 (natToDec n) := by
  intro h
  unfold pad5 at h
  rcases List.mem_append.mp h with hrep | hdec
  · have := (List.mem_replicate.mp hrep).2
    simp at this
  · exact dot_not_mem_natToDec n hdec

/-- `"{:.5f}"` output splits as integer digits, one decimal point, and the
fractional digits, with no decimal point on either side. -/
theorem fixed5_split (q : ℚ) :
    ∃ P F, fixed5 q = P ++ '.' :: F ∧ '.' ∉ P ∧ '.' ∉ F := by
  rw [fixed5]
  by_cases hn : scale5 q < 0
  · rw [if_pos hn, fixed5Nat]
    refine ⟨'-' :: natToDec ((scale5 q).natAbs / 100000),
      pad5 (natToDec ((scale5 q).natAbs % 100000)), by simp, ?_, dot_not_mem_pad5 _⟩
    intro h
    rcases List.mem_cons.mp h with h | h
    · simp at h
    · exact dot_not_mem_natToDec _ h
  · rw [if_neg hn, fixed5Nat]
    exact ⟨natToDec ((scale5 q).toNat / 100000),
      pad5 (natToDec ((scale5 q).toNat % 100000)), rfl,
      dot_not_mem_natToDec _, dot_not_mem_pad5 _⟩

/-- The rendered numeric text never ends in a decimal point, and whenever
it still contains a decimal point it does not end in a zero either: the
trailing zeros and the trailing point have been stripped. -/
theorem numericCode_no_trailing (q : ℚ) :
    (numericCode q).data.getLast? ≠ some '.'
      ∧ ('.' ∈ (numericCode q).data → (numericCode q).data.getLast? ≠ some '0') := by
  obtain ⟨P, F, hPF, hP, hF⟩ := fixed5_split q
  have hdata : (numericCode q).data = pyRstrip (pyRstrip ((P ++ ['.']) ++ F) '0') '.' := by
    show (pyRstrip (pyRstrip (fixed5 q) '0') '.') = _
    rw [hPF]
    simp
  rw [pyRstrip_append] at hdata
  by_cases hFnil : pyRstrip F '0' = []
  · rw [if_pos hFnil] at hdata
    have h1 : pyRstrip (P ++ ['.']) '0' = P ++ ['.'] := by
      apply pyRstrip_of_getLast_ne
      rw [List.getLast?_concat]
      intro hc
      simp at hc
    rw [h1, pyRstrip_append] at hdata
    have h2 : pyRstrip ['.'] '.' = [] := by decide
    rw [if_pos h2, pyRstrip_of_not_mem P '.' hP] at hdata
    constructor
    · rw [hdata]
      intro hc
      rcases List.getLast?_eq_some_iff.mp hc with ⟨ys, hys⟩
      exact hP (by rw [hys]; simp)
    · intro hmem
      rw [hdata] at hmem
      exact absurd hmem hP
  · rw [if_neg hFnil] at hdata
    have hlast0 : (pyRstrip F '0').getLast? ≠ some '0' := pyRstrip_getLast_ne F '0'
    have hlastdot : (pyRstrip F '0').getLast? ≠ some '.' := by
      intro hc
      rcases List.getLast?_eq_some_iff.mp hc with ⟨ys, hys⟩
      exact hF (mem_pyRstrip F '0' '.' (by rw [hys]; simp))
    have hglast : ((P ++ ['.']) ++ pyRstrip F '0').getLast? = (pyRstrip F '0').getLast? := by
      rw [List.getLast?_append, List.getLast?_eq_getLast (pyRstrip F '0') hFnil]
      rfl
    have houter : pyRstrip ((P ++ ['.']) ++ pyRstrip F '0') '.'
        = (P ++ ['.']) ++ pyRstrip F '0' := by
      apply pyRstrip_of_getLast_ne
      rw [hglast]
      exact hlastdot
    rw [houter] at hdata
    constructor
    · rw [hdata, hglast]
      exact hlastdot
    · intro hmem
      rw [hdata, hglast]
      exact hlast0

/-- C4: every numeric component of a coordinate is rendered in 5-decimal
fixed point with trailing zeros and a trailing decimal point stripped: the
coordinate (1.0, 2.5) renders with component texts `1` and `2.5`, and in
general the rendered text never ends in a decimal point, and never ends in
a zero while still containing a decimal point (so a form like `1.00000`
is impossible). -/
theorem numeric_coordinate_rendering :
    pyCoordinate (.tup [.num 1, .num twoPointFive]) = .ok (.arr [1, twoPointFive])
      ∧ coordinateCode (.arr [1, twoPointFive]) none = "(1,2.5)"
      ∧ numericCode 1 = "1"
      ∧ numericCode twoPointFive = "2.5"
      ∧ ∀ q : ℚ,
          ((numericCode q).data.getLast? == some '.') = false
            ∧ (decide ('.' ∈ (numericCode q).data)
                && ((numericCode q).data.getLast? == some '0')) = false := by
  refine ⟨by rfl, by decide, by decide, by decide, fun q => ?_⟩
  obtain ⟨h1, h2⟩ := numericCode_no_trailing q
  constructor
  · simpa using h1
  · by_cases hm : '.' ∈ (numericCode q).data
    · have h3 := h2 hm
      simp [hm]
      simpa using h3
    · simp [hm]

/-- A string wrapped in parentheses passes the coordinate string test. -/
theorem isCoordStr_wrapped (mid : String) : isCoordStr ("(" ++ mid ++ ")") = true := by
  have h1 : pyStartsWith ("(" ++ mid ++ ")") "(" = true := by
    simp [pyStartsWith, String.data_append, List.isPrefixOf]
  have h2 : pyEndsWith ("(" ++ mid ++ ")") ")" = true := by
    simp [pyEndsWith, String.data_append, List.isPrefixOf]
  simp [isCoordStr, h1, h2]

/-- C8: the coordinate normalizer is idempotent: whatever `_coordinate`
accepts and returns, feeding it back returns the very same value. -/
theorem coordinate_normalize_idempotent (v w : PyVal)
    (h : pyCoordinate v = .ok w) : pyCoordinate w = .ok w := by
  cases v with
  | str s =>
      rw [pyCoordinate] at h
      by_cases hc : isCoordStr s = true
      · rw [if_pos hc] at h
        have hw : w = .str s := by
          simpa using h.symm
        subst hw
        rw [pyCoordinate, if_pos hc]
      · rw [if_neg hc] at h
        simp at h
  | tup xs =>
      rw [pyCoordinate] at h
      by_cases hg : ((xs.length == 2 || xs.length == 3) && xs.all isStrOrNumV) = true
      · rw [if_pos hg] at h
        by_cases hS : xs.all isStrV = true
        · rw [if_pos hS] at h
          have hw : w = .str ("(" ++ String.intercalate "," (xs.map strOf) ++ ")") := by
            simpa using h.symm
          subst hw
          rw [pyCoordinate, if_pos (isCoordStr_wrapped _)]
        · rw [if_neg hS] at h
          by_cases hN : xs.all isNumV = true
          · rw [if_pos hN] at h
            have hw : w = .arr (xs.map numOf) := by
              simpa using h.symm
            subst hw
            rw [pyCoordinate]
            have hlen : ((xs.map numOf).length == 2 || (xs.map numOf).length == 3) = true := by
              rw [List.length_map]
              exact ((Bool.and_eq_true _ _).mp hg).1
            rw [if_pos hlen]
          · rw [if_neg hN] at h
            have hw : w = .tup xs := by
              simpa using h.symm
            subst hw
            rw [pyCoordinate, if_pos hg, if_neg hS, if_neg hN]
      · rw [if_neg hg] at h
        simp at h
  | arr qs =>
      rw [pyCoordinate] at h
      by_cases hl : (qs.length == 2 || qs.length == 3) = true
      · rw [if_pos hl] at h
        have hw : w = .arr qs := by
          simpa using h.symm
        subst hw
        rw [pyCoordinate, if_pos hl]
      · rw [if_neg hl] at h
        simp at h
  | num q => simp [pyCoordinate] at h
  | list xs => simp [pyCoordinate] at h
  | arr2 rows => simp [pyCoordinate] at h
  | noneV => simp [pyCoordinate] at h
  | other t => simp [pyCoordinate] at h

/-- Witness for C8 at the concrete coordinate `(3, 4)`. -/
theorem coordinate_normalize_idempotent_witness :
    pyCoordinate (.tup [.num 3, .num 4]) = .ok (.arr [3, 4])
      ∧ pyCoordinate (.arr [3, 4]) = .ok (.arr [3, 4]) :=
  ⟨rfl, coordinate_normalize_idempotent (.tup [.num 3, .num 4]) (.arr [3, 4]) rfl⟩

/-- C10: a single coordinate accepted by `_coordinate` is promoted by
`_sequence` (with coordinate acceptance on) to the one-element sequence:
the result is the same as for the literal one-element list. -/
theorem sequence_accepts_bare_coordinate (v : PyVal)
    (h : ∃ w, pyCoordinate v = .ok w) :
    pySequence v true = pySequence (.list [v]) true := by
  obtain ⟨w, hw⟩ := h
  cases v with
  | str s => rfl
  | tup xs => rfl
  | arr qs => rfl
  | num q => simp [pyCoordinate] at hw
  | list xs => simp [pyCoordinate] at hw
  | arr2 rows => simp [pyCoordinate] at hw
  | noneV => simp [pyCoordinate] at hw
  | other t => simp [pyCoordinate] at hw

/-- Witness for C10 at the concrete coordinate `(1, 2)`, which both paths
normalize to the single-row 2-d array. -/
theorem sequence_accepts_bare_coordinate_witness :
    pySequence (.tup [.num 1, .num 2]) true = pySequence (.list [.tup [.num 1, .num 2]]) true
      ∧ pySequence (.tup [.num 1, .num 2]) true = .ok (.arr2 [[1, 2]]) :=
  ⟨sequence_accepts_bare_coordinate (.tup [.num 1, .num 2]) ⟨.arr [1, 2], rfl⟩, rfl⟩

/-- A tuple of only strings is a tuple of strings-or-numbers. -/
theorem all_str_imp_strOrNum (xs : List PyVal) (h : xs.all isStrV = true) :
    xs.all isStrOrNumV = true := by
  rw [List.all_eq_true] at h ⊢
  intro x hx
  simp [isStrOrNumV, h x hx]

/-- A tuple of only numbers is a tuple of strings-or-numbers. -/
theorem all_num_imp_strOrNum (xs : List PyVal) (h : xs.all isNumV = true) :
    xs.all isStrOrNumV = true := by
  rw [List.all_eq_true] at h ⊢
  intro x hx
  simp [isStrOrNumV, h x hx]

/-- C2: the coordinate normalizer behaves exactly as the claim enumerates
it, case by case (`coordinateClaimSpec` is written from the claim wording,
`pyCoordinate` from the source). -/
theorem coordinate_normalizer_matches_claim (v : PyVal) :
    pyCoordinate v = coordinateClaimSpec v := by
  cases v with
  | str s =>
      rw [pyCoordinate, coordinateClaimSpec]
      have hcond : isCoordStr s
          = (s == "cycle"
              || ((pyStartsWith s "(" || pyStartsWith s "+(" || pyStartsWith s "++(")
                    && pyEndsWith s ")")) := by
        rw [isCoordStr, Bool.or_comm]
      rw [hcond]
  | tup xs =>
      rw [pyCoordinate, coordinateClaimSpec]
      by_cases hlen : (xs.length == 2 || xs.length == 3) = true
      · by_cases hsn : xs.all isStrOrNumV = true
        · rw [if_pos (by rw [hlen, hsn]; rfl), if_pos hlen]
          by_cases hS : xs.all isStrV = true
          · rw [if_pos hS, if_pos hS]
          · rw [if_neg hS, if_neg hS]
            by_cases hN : xs.all isNumV = true
            · rw [if_pos hN, if_pos hN]
            · rw [if_neg hN, if_neg hN, if_pos hsn]
        · have hS : xs.all isStrV ≠ true := fun h => hsn (all_str_imp_strOrNum xs h)
          have hN : xs.all isNumV ≠ true := fun h => hsn (all_num_imp_strOrNum xs h)
          rw [if_neg (by simp [hsn]), if_pos hlen, if_neg hS, if_neg hN, if_neg hsn]
      · rw [if_neg (by simp [hlen]), if_neg hlen]
  | arr qs => rfl
  | num q => rfl
  | list xs => rfl
  | arr2 rows => rfl
  | noneV => rfl
  | other t => rfl

/-- C3: option serialization renders the comma-joined positional flags
first, directly followed by the comma-joined `key=value` pairs in
insertion order; a key mapped to boolean `True` renders as the bare key
and a string value as `key=value`, with underscores in keys replaced by
spaces; the mapping `{draw: True, color: "red"}` renders its content as
`draw,color=red` (bracketed as `[draw,color=red]` in the default mode);
an empty option set renders as the empty string. -/
theorem opts_option_rendering :
    (∀ flags kws wb,
        (Opts.mk flags kws true).to_code wb =
          (let body := nestedStrListToStr (.many flags)
              ++ String.intercalate "," (kws.map fun kv => normaliseKeyVal true kv.1 kv.2)
           if body = "" then "" else if wb then body else "[" ++ body ++ "]"))
      ∧ (∀ key, normaliseKeyVal true key .boolT = underscoreToSpace key)
      ∧ (∀ key s, normaliseKeyVal true key (.strV s) = underscoreToSpace key ++ "=" ++ s)
      ∧ (Opts.normalise (.dictL [("draw", .boolT), ("color", .strV "red")])).to_code true
          = "draw,color=red"
      ∧ (Opts.normalise (.dictL [("draw", .boolT), ("color", .strV "red")])).to_code false
          = "[draw,color=red]"
      ∧ (∀ wb, (Opts.normalise .noneL).to_code wb = "") := by
  refine ⟨fun flags kws wb => ?_, fun key => rfl, fun key s => rfl, by decide, by decide,
    fun wb => by cases wb <;> rfl⟩
  simp only [Opts.to_code]
  generalize (nestedStrListToStr (.many flags)
      ++ String.intercalate "," (kws.map fun kv => normaliseKeyVal true kv.1 kv.2)) = body
  by_cases hb : body = ""
  · rw [hb]
    simp
  · have hlen : 0 < body.length := (string_length_pos body).mpr hb
    cases wb with
    | false => simp [hb, hlen]
    | true => simp [hb, hlen]

/-- C5: a scope holding exactly one draw action over the two-point line
from (0,0) to (1,1), with no options anywhere, renders that action as the
fragment `\draw (0,0) -- (1,1);` with no option brackets. -/
theorem scope_draw_line_fragment :
    ((Line.make (.list [.tup [.num 0, .num 0], .tup [.num 1, .num 1]]) "--" .noneL).bind
        fun l => (Scope.make .noneL).draw [.opA (.lineOp l)] .noneL).map
          (fun sc => sc.elements.map fun e => elementCode e none)
      = .ok ["\\draw (0,0) -- (1,1);"] := rfl

/-- C6: with caching enabled, building again from the same document text
after a successful build finds the hash-named artifact and does not invoke
the external compiler; with caching disabled, every build request invokes
the compiler no matter what is on disk. -/
theorem build_cache_behaviour :
    (∀ td (h : String → String) doc fe s1 s2 comp2,
        (updateBuild true td h doc
            (fsAfter fe (updateBuild true td h doc fe ⟨0, s1, s2⟩)) comp2).invoked = false)
      ∧ (∀ td (h : String → String) doc fe comp,
          (updateBuild false td h doc fe comp).invoked = true) := by
  constructor
  · intro td h doc fe s1 s2 comp2
    by_cases hfe : fe (td ++ "/" ++ "tikz-" ++ h doc ++ ".pdf") = true
    · simp [updateBuild, fsAfter, hfe]
    · simp [updateBuild, fsAfter, hfe]
  · intro td h doc fe comp
    rw [updateBuild]
    simp only [Bool.false_and, Bool.false_eq_true, if_false]
    by_cases hc : (comp.returncode == 0) = true
    · rw [if_pos hc]
    · rw [if_neg hc]

/-- C7: whenever the build phase actually ran the external compiler, a
nonzero exit status raises `LatexError` carrying the captured compiler
output as diagnostic text and the artifact is not relocated, while a zero
exit status raises nothing and relocates the artifact. -/
theorem build_error_behaviour (cache : Bool) (td : String) (h : String → String)
    (doc : String) (fe : String → Bool) (comp : Completed)
    (hinv : (updateBuild cache td h doc fe comp).invoked = true) :
    (updateBuild cache td h doc fe comp).raised
        = (if comp.returncode = 0 then none
           else some ("LaTeX has failed\n" ++ comp.stdout))
      ∧ (updateBuild cache td h doc fe comp).renamed = decide (comp.returncode = 0) := by
  rw [updateBuild] at hinv ⊢
  by_cases hhit : (cache && fe (td ++ "/" ++ "tikz-" ++ h doc ++ ".pdf")) = true
  · rw [if_pos hhit] at hinv
    simp at hinv
  · rw [if_neg hhit] at hinv ⊢
    by_cases hc : (comp.returncode == 0) = true
    · have hez : comp.returncode = 0 := by simpa using hc
      rw [if_pos hc, if_pos hez]
      simp [hez]
    · have hez : ¬comp.returncode = 0 := by simpa using hc
      rw [if_neg hc, if_neg hez]
      simp [hez]

/-- Witness for C7: a failing compile (`returncode 1`, captured output
`log`) raises `LaTeX has failed` followed by that output and performs no
rename. -/
theorem build_error_behaviour_witness :
    (updateBuild false "t" id "x" (fun _ => false) ⟨1, "log", ""⟩).raised
        = some ("LaTeX has failed\nlog")
      ∧ (updateBuild false "t" id "x" (fun _ => false) ⟨1, "log", ""⟩).renamed = false := by
  obtain ⟨h1, h2⟩ :=
    build_error_behaviour false "t" id "x" (fun _ => false) ⟨1, "log", ""⟩ (by rfl)
  refine ⟨?_, ?_⟩
  · rw [h1]
    rfl
  · rw [h2]
    rfl

/-- C9: `write_image` raises its unsupported-format error, naming the
extension without its dot, exactly when the lowercased extension is none
of `.pdf`, `.png`, `.svg`; in particular `pic.bmp` fails naming `bmp`. -/
theorem write_image_format_dispatch :
    (∀ fn, (writeImageBranch fn).errMsg =
        (if pyLower (splitextExt fn) ∈ ([".pdf", ".png", ".svg"] : List String)
         then none
         else some ("format " ++ (⟨(splitextExt fn).data.drop 1⟩ : String)
            ++ " is not supported")))
      ∧ writeImageBranch "pic.bmp" = .unsupported "format bmp is not supported" := by
  refine ⟨fun fn => ?_, by rfl⟩
  by_cases h1 : pyLower (splitextExt fn) = ".pdf"
  · simp [writeImageBranch, WriteBranch.errMsg, h1]
  · by_cases h2 : pyLower (splitextExt fn) = ".png"
    · simp [writeImageBranch, WriteBranch.errMsg, h1, h2]
    · by_cases h3 : pyLower (splitextExt fn) = ".svg"
      · simp [writeImageBranch, WriteBranch.errMsg, h1, h2, h3]
      · simp [writeImageBranch, WriteBranch.errMsg, h1, h2, h3]

/-- C1: `circle._code` and `arc._code` never emit any radius option,
symmetric or not: their first statement reads the attribute `kwoptions`,
which no instance has, so every call raises `AttributeError`; in
particular `circle(radius=1)` and `arc(radius=1)` fail when rendered. -/
theorem circle_arc_code_raises :
    (∀ (c : Circle) (t : Trans),
        circleCode c t = .error "AttributeError: circle object has no attribute kwoptions")
      ∧ (∀ (a : Arc) (t : Trans),
          arcCode a t = .error "AttributeError: arc object has no attribute kwoptions")
      ∧ (Circle.make (.numR 1) .pyNone .pyNone none .noneL).bind
            (fun c => circleCode c none)
          = .error "AttributeError: circle object has no attribute kwoptions"
      ∧ arcCode (Arc.make (.numR 1) .pyNone .pyNone .noneL) none
          = .error "AttributeError: arc object has no attribute kwoptions" :=
  ⟨fun _ _ => rfl, fun _ _ => rfl, rfl, rfl⟩

end PyTikz
